import Mathlib

/-!
Shallow embedding of `src/ascii-video.py` (MP4-to-ASCII terminal player).

Python machine arithmetic is modelled with exact rationals (`ℚ`): the
numeric literals `0.55`, `0.299`, `0.587`, `0.114` become the rationals
`55/100`, `299/1000`, `587/1000`, `114/1000`, Python's true division `/`
becomes division in `ℚ`, Python's `int(...)` conversion becomes truncation
toward zero (`ratTrunc`), and Python's floor division `//` on non-negative
integers becomes `Nat` division.  Character ramps are represented as lists
of Unicode code points (one `ℕ` per character of the Python string).
-/

namespace AsciiVideo

/-- Truncation toward zero of a rational number: the meaning of Python's
`int(x)` conversion applied to a float/true-division result. -/
def ratTrunc (q : ℚ) : ℤ := if 0 ≤ q then ⌊q⌋ else -⌊-q⌋

/-- The `ASCII_CHARS['standard']` ramp, as Unicode code points. -/
def standardRamp : List ℕ := [32, 46, 58, 45, 61, 43, 42, 35, 37, 64]

/-- The `ASCII_CHARS['detailed']` ramp, as Unicode code points. -/
def detailedRamp : List ℕ :=
  [32, 46, 39, 96, 94, 34, 44, 58, 59, 73, 108, 33, 105, 62, 60, 126, 43,
   95, 45, 63, 93, 91, 125, 123, 49, 41, 40, 124, 92, 47, 116, 102, 106,
   114, 120, 110, 117, 118, 99, 122, 88, 89, 85, 74, 67, 76, 81, 48, 79,
   90, 109, 119, 113, 112, 100, 98, 107, 104, 97, 111, 42, 35, 77, 87, 38,
   56, 37, 66, 64, 36]

/-- The `ASCII_CHARS['blocks']` ramp, as Unicode code points (the source
file stores these characters double-encoded; the code points below are what
the Python interpreter actually reads from the file). -/
def blocksRamp : List ℕ :=
  [32, 8218, 241, 235, 8218, 241, 237, 8218, 241, 236, 8218, 241, 224]

/-- The `ASCII_CHARS['simple']` ramp, as Unicode code points. -/
def simpleRamp : List ℕ := [32, 46, 111, 79, 64]

/-- The `ASCII_CHARS['matrix']` ramp, as Unicode code points. -/
def matrixRamp : List ℕ := [32, 46, 58, 45, 61, 43, 42, 35, 37, 64, 48, 49]

/-- The `ASCII_CHARS['crazy']` ramp, as Unicode code points (double-encoded
in the source file, see `blocksRamp`). -/
def crazyRamp : List ℕ :=
  [32, 8218, 163, 196, 8218, 163, 167, 8218, 163, 8706, 8218, 163, 248,
   8218, 163, 248, 8218, 163, 8706, 8218, 163, 167, 8218, 163, 196]

/-- The `ASCII_CHARS['ultra']` ramp, as Unicode code points. -/
def ultraRamp : List ℕ :=
  [32, 96, 46, 45, 39, 58, 95, 44, 94, 61, 59, 62, 60, 43, 33, 114, 99,
   42, 47, 122, 63, 115, 76, 84, 118, 41, 74, 55, 40, 124, 70, 105, 123,
   67, 125, 102, 73, 51, 49, 116, 108, 117, 91, 110, 101, 111, 90, 53, 89,
   120, 106, 121, 97, 93, 50, 69, 83, 119, 113, 107, 80, 54, 104, 57, 100,
   52, 86, 112, 79, 71, 98, 85, 65, 75, 88, 72, 109, 56, 82, 68, 35, 36,
   66, 103, 48, 77, 78, 87, 81, 37, 38, 64]

/-- The module-level `ASCII_CHARS` dictionary: style name to ramp. -/
def ASCII_CHARS : List (String × List ℕ) :=
  [("standard", standardRamp), ("detailed", detailedRamp),
   ("blocks", blocksRamp), ("simple", simpleRamp), ("matrix", matrixRamp),
   ("crazy", crazyRamp), ("ultra", ultraRamp)]

/-- `VideoToASCII.__init__` line
`self.ascii_chars = ASCII_CHARS.get(style, ASCII_CHARS['ultra'])`:
dictionary lookup with the `'ultra'` ramp as default. -/
def ascii_chars_init (style : String) : List ℕ :=
  (ASCII_CHARS.lookup style).getD ultraRamp

/-- The glyph index computed inside `_create_lookup_table`:
`index = int((i / 255) * (chars_len - 1))`. -/
def mapIndex (i chars_len : ℕ) : ℕ :=
  (ratTrunc ((i : ℚ) / 255 * ((chars_len : ℚ) - 1))).toNat

/-- `_create_lookup_table`: the 256-entry table mapping each intensity to
the ramp character at `mapIndex` (source: `lookup.append(self.ascii_chars[index])`). -/
def create_lookup_table (ramp : List ℕ) : List ℕ :=
  (List.range 256).map fun i => ramp.getD (mapIndex i ramp.length) 0

/-- The luminance computed in `frame_to_colored_ascii_fast`:
`gray = int(0.299 * r + 0.587 * g + 0.114 * b)`. -/
def grayOf (r g b : ℕ) : ℕ :=
  (ratTrunc ((299 : ℚ) / 1000 * r + (587 : ℚ) / 1000 * g +
    (114 : ℚ) / 1000 * b)).toNat

/-- The 256-color palette code computed in `frame_to_colored_ascii_fast`:
`color_code = 16 + (r//51)*36 + (g//51)*6 + (b//51)`. -/
def colorCode (r g b : ℕ) : ℕ :=
  16 + (r / 51) * 36 + (g / 51) * 6 + (b / 51)

/-- The video properties recorded by `initialize_video` on success:
`total_frames`, `video_fps`, `video_width`, `video_height`,
`video_duration = total_frames / video_fps`, `frame_delay = 1 / video_fps`. -/
structure VideoProps where
  total_frames : ℤ
  video_fps : ℚ
  video_width : ℤ
  video_height : ℤ
  video_duration : ℚ
  frame_delay : ℚ
deriving DecidableEq

/-- Outcome of `initialize_video`: `openFailed` when `cap.isOpened()` is
false (the only guard present in the code), `zeroDivCrash` when the
statement `self.video_duration = self.total_frames / self.video_fps` is
reached with `video_fps == 0` (Python raises ZeroDivisionError there), and
`ok` otherwise. -/
inductive InitResult where
  | openFailed
  | zeroDivCrash
  | ok (props : VideoProps)
deriving DecidableEq

/-- `initialize_video`, as a function of the metadata reported by the
capture: the code checks only `cap.isOpened()`, then computes
`video_duration` and `frame_delay` by dividing by `video_fps` with no
degenerate-metadata validation. -/
def init_video (opened : Bool) (total_frames : ℤ) (fps : ℚ)
    (w h : ℤ) : InitResult :=
  if !opened then .openFailed
  else if fps = 0 then .zeroDivCrash
  else .ok ⟨total_frames, fps, w, h, (total_frames : ℚ) / fps, 1 / fps⟩

/-- `calculate_dimensions`, as a function of the pre-set character width
`self.width`, the video pixel dimensions and the terminal dimensions;
returns the final `(self.width, self.ascii_height)` pair.  Mirrors the
source: `ascii_height = int(width * aspect * 0.55)`; clamp the height to
`term_height - 4` (recomputing the width); then clamp the width to
`term_width - 2` (recomputing the height). -/
def calculate_dimensions (width video_width video_height
    term_width term_height : ℤ) : ℤ × ℤ :=
  let aspect : ℚ := (video_height : ℚ) / (video_width : ℚ)
  let ascii_height := ratTrunc ((width : ℚ) * aspect * (55 / 100))
  let max_height := term_height - 4
  let p :=
    if ascii_height > max_height then
      (ratTrunc ((max_height : ℚ) / aspect / (55 / 100)), max_height)
    else (width, ascii_height)
  if p.1 > term_width - 2 then
    (term_width - 2, ratTrunc (((term_width - 2 : ℤ) : ℚ) * aspect * (55 / 100)))
  else p

/-- The target frame index computed each outer iteration of
`play_ascii_video`: `target_frame_num = int(elapsed * self.video_fps)`. -/
def targetFrameNum (elapsed fps : ℚ) : ℤ := ratTrunc (elapsed * fps)

/-- The mutable playback variables of `play_ascii_video`:
`frame_count`, `dropped_frames`, `last_displayed_frame`, `start_time`. -/
structure PlaybackState where
  frame_count : ℕ
  dropped_frames : ℕ
  last_displayed_frame : Option ℕ
  start_time : ℚ
deriving DecidableEq

/-- The loop-restart branch of `play_ascii_video` (executed both when the
target index passes `total_frames` and on end-of-stream with `loop=True`):
`frame_count = 0; start_time = time.perf_counter(); dropped_frames = 0`.
The variable `last_displayed_frame` is not assigned in this branch. -/
def loopRestart (s : PlaybackState) (now : ℚ) : PlaybackState :=
  { frame_count := 0, dropped_frames := 0,
    last_displayed_frame := s.last_displayed_frame, start_time := now }

/-- Read-loop accounting: frames read so far (`frame_count`), frames
rendered and displayed, and `dropped_frames`. -/
structure ReadStats where
  frame_count : ℕ
  displayed : ℕ
  dropped : ℕ
deriving DecidableEq

/-- The inner frame-reading loop of `play_ascii_video` for one outer
iteration with target index `target`, in a non-looping session where every
read with `frame_count < total` succeeds: while
`frame_count <= target_frame_num and frame_count < total_frames`, read one
frame; display it when `frame_count == target_frame_num`, otherwise count
it dropped; then `frame_count += 1`. -/
def readLoop (total target : ℕ) (s : ReadStats) : ReadStats :=
  if s.frame_count ≤ target ∧ s.frame_count < total then
    if s.frame_count = target then
      readLoop total target ⟨s.frame_count + 1, s.displayed + 1, s.dropped⟩
    else
      readLoop total target ⟨s.frame_count + 1, s.displayed, s.dropped + 1⟩
  else s
termination_by target + 1 - s.frame_count
decreasing_by
  all_goals simp_all
  all_goals omega

/-- A whole non-looping session: the outer loop runs the read loop once
per iteration with the successive target indices, starting from
`frame_count = 0`, `displayed = 0`, `dropped = 0`. -/
def runSession (total : ℕ) (targets : List ℕ) : ReadStats :=
  targets.foldl (fun s t => readLoop total t s) ⟨0, 0, 0⟩

/-- The end-of-iteration sleep decision of `play_ascii_video`:
`next_frame_time = frame_count / video_fps`;
`sleep_duration = next_frame_time - (now - start_time)`; sleep exactly
when `sleep_duration > 0 and sleep_duration < 1`. -/
def nextFrameTime (frame_count : ℕ) (fps : ℚ) : ℚ := (frame_count : ℚ) / fps

/-- Returns `some d` when the scheduler sleeps for duration `d`, `none`
when it skips the sleep ( `elapsedNow` is `time.perf_counter() - start_time`
at the check). -/
def sleepDecision (frame_count : ℕ) (fps elapsedNow : ℚ) : Option ℚ :=
  let d := nextFrameTime frame_count fps - elapsedNow
  if 0 < d ∧ d < 1 then some d else none

theorem ratTrunc_of_nonneg {q : ℚ} (h : 0 ≤ q) : ratTrunc q = ⌊q⌋ := by
  simp [ratTrunc, h]

theorem mapIndex_eq_div (i N : ℕ) (hN : 1 ≤ N) :
    mapIndex i N = i * (N - 1) / 255 := by
  have hcast : ((N : ℚ) - 1) = ((N - 1 : ℕ) : ℚ) := by
    push_cast [Nat.cast_sub hN]
    ring
  have hval : (i : ℚ) / 255 * ((N : ℚ) - 1) = ((i * (N - 1) : ℕ) : ℚ) / 255 := by
    rw [hcast]
    push_cast
    ring
  have hnn : (0 : ℚ) ≤ (i : ℚ) / 255 * ((N : ℚ) - 1) := by
    rw [hval]
    positivity
  rw [mapIndex, ratTrunc_of_nonneg hnn, hval, Int.floor_toNat,
    Nat.floor_div_ofNat, Nat.floor_natCast]

theorem grayOf_eq_div (r g b : ℕ) :
    grayOf r g b = (299 * r + 587 * g + 114 * b) / 1000 := by
  have hval : (299 : ℚ) / 1000 * r + (587 : ℚ) / 1000 * g +
      (114 : ℚ) / 1000 * b = ((299 * r + 587 * g + 114 * b : ℕ) : ℚ) / 1000 := by
    push_cast
    ring
  have hnn : (0 : ℚ) ≤ (299 : ℚ) / 1000 * r + (587 : ℚ) / 1000 * g +
      (114 : ℚ) / 1000 * b := by
    rw [hval]
    positivity
  rw [grayOf, ratTrunc_of_nonneg hnn, hval, Int.floor_toNat,
    Nat.floor_div_ofNat, Nat.floor_natCast]

/-- Claim C1: for elapsed time `e₁ ≥ 0` and native frame rate `f > 0`, the
target frame index `int(elapsed * video_fps)` equals `⌊e₁ * f⌋`, and for
non-decreasing elapsed time (`e₁ ≤ e₂`) the target index is
non-decreasing. -/
theorem targetFrameNum_floor_monotone (e₁ e₂ f : ℚ) (he : 0 ≤ e₁)
    (h12 : e₁ ≤ e₂) (hf : 0 < f) :
    targetFrameNum e₁ f = ⌊e₁ * f⌋ ∧
    targetFrameNum e₁ f ≤ targetFrameNum e₂ f := by
  have h1 : (0 : ℚ) ≤ e₁ * f := mul_nonneg he hf.le
  have h2 : (0 : ℚ) ≤ e₂ * f := mul_nonneg (he.trans h12) hf.le
  refine ⟨ratTrunc_of_nonneg h1, ?_⟩
  rw [targetFrameNum, targetFrameNum, ratTrunc_of_nonneg h1,
    ratTrunc_of_nonneg h2]
  exact Int.floor_le_floor (mul_le_mul_of_nonneg_right h12 hf.le)

/-- Witness for claim C1 at `e₁ = 1/2`, `e₂ = 3/4`, `f = 10`. -/
theorem targetFrameNum_floor_monotone_witness :
    targetFrameNum (1 / 2) 10 = ⌊(1 / 2 : ℚ) * 10⌋ ∧
    targetFrameNum (1 / 2) 10 ≤ targetFrameNum (3 / 4) 10 :=
  targetFrameNum_floor_monotone (1 / 2) (3 / 4) 10 (by norm_num)
    (by norm_num) (by norm_num)

theorem readLoop_account (total target : ℕ) (s : ReadStats) :
    (readLoop total target s).displayed + (readLoop total target s).dropped
        + s.frame_count
      = (readLoop total target s).frame_count
        + (s.displayed + s.dropped) := by
  induction s using readLoop.induct total target with
  | case1 s hc heq ih =>
    rw [readLoop, if_pos hc, if_pos heq]
    dsimp only at ih
    omega
  | case2 s hc heq ih =>
    rw [readLoop, if_pos hc, if_neg heq]
    dsimp only at ih
    omega
  | case3 s hc =>
    rw [readLoop, if_neg hc]
    omega

/-- Claim C2: in a non-looping session (reads succeed while
`frame_count < total_frames`), after every outer iteration the number of
displayed frames plus the dropped-frame counter equals the number of
frames read: every frame read is either displayed (it is the target index)
or counted as dropped. -/
theorem frame_accounting (total : ℕ) (targets : List ℕ) :
    (runSession total targets).displayed + (runSession total targets).dropped
      = (runSession total targets).frame_count := by
  suffices h : ∀ s : ReadStats, s.displayed + s.dropped = s.frame_count →
      (targets.foldl (fun s t => readLoop total t s) s).displayed +
        (targets.foldl (fun s t => readLoop total t s) s).dropped =
        (targets.foldl (fun s t => readLoop total t s) s).frame_count by
    exact h ⟨0, 0, 0⟩ rfl
  induction targets with
  | nil => exact fun s hs => hs
  | cons t ts ih =>
    intro s hs
    simp only [List.foldl_cons]
    apply ih
    have := readLoop_account total t s
    omega

/-- Claim C3 (evaluation at the failing inputs): `initialize_video`
performs no degenerate-metadata validation.  With the capture opened, a
reported frame rate of `-1` (≤ 0) or a total frame count of `0` (≤ 0)
initializes successfully and playback starts, and a reported frame rate of
exactly `0` reaches the division `total_frames / video_fps` with a zero
divisor (a ZeroDivisionError crash, not a clean fatal initialization
error). -/
theorem init_video_no_metadata_validation :
    init_video true 10 (-1) 640 480 =
      InitResult.ok ⟨10, -1, 640, 480, -10, -1⟩ ∧
    init_video true 0 25 640 480 =
      InitResult.ok ⟨0, 25, 640, 480, 0, 1 / 25⟩ ∧
    init_video true 10 0 640 480 = InitResult.zeroDivCrash := by
  refine ⟨?_, ?_, ?_⟩ <;> norm_num [init_video]

/-- Counterexample for claim C4 as stated: after the loop-restart branch,
`frame_count` and `dropped_frames` are reset to zero and the clock
restarts, but the last-rendered index is NOT reset to zero: starting from
a state whose `last_displayed_frame` is `some 5`, it is still `some 5`
after the restart. -/
theorem loopRestart_counterexample :
    (loopRestart ⟨7, 3, some 5, 2⟩ 10).frame_count = 0 ∧
    (loopRestart ⟨7, 3, some 5, 2⟩ 10).dropped_frames = 0 ∧
    (loopRestart ⟨7, 3, some 5, 2⟩ 10).start_time = 10 ∧
    (loopRestart ⟨7, 3, some 5, 2⟩ 10).last_displayed_frame = some 5 ∧
    some 5 ≠ (some 0 : Option ℕ) := by
  refine ⟨rfl, rfl, rfl, rfl, by decide⟩

/-- Claim C4 (amended): on loop restart the current frame index and the
dropped-frame counter are reset to zero and the playback clock restarts
from the reset instant, while the last-rendered index is left unchanged
(it is not reassigned in the restart branch). -/
theorem loopRestart_spec (s : PlaybackState) (now : ℚ) :
    loopRestart s now = ⟨0, 0, s.last_displayed_frame, now⟩ := rfl

/-- Counterexample for claim C5 as stated: the code truncates the
luminance (`int(...)`), it does not round to nearest.  At the pixel
`(r, g, b) = (0, 1, 0)` the code yields `0` while
`round(0.299*0 + 0.587*1 + 0.114*0) = 1`. -/
theorem grayOf_round_counterexample :
    grayOf 0 1 0 = 0 ∧
    round ((299 : ℚ) / 1000 * 0 + (587 : ℚ) / 1000 * 1 +
      (114 : ℚ) / 1000 * 0) = 1 ∧
    (grayOf 0 1 0 : ℤ) ≠ round ((299 : ℚ) / 1000 * 0 +
      (587 : ℚ) / 1000 * 1 + (114 : ℚ) / 1000 * 0) := by
  have h1 : grayOf 0 1 0 = 0 := by
    rw [grayOf_eq_div]
  have h2 : round ((299 : ℚ) / 1000 * 0 + (587 : ℚ) / 1000 * 1 +
      (114 : ℚ) / 1000 * 0) = 1 := by
    rw [round_eq]
    norm_num
  refine ⟨h1, h2, ?_⟩
  rw [h1, h2]
  decide

/-- Claim C5 (amended): the luminance used for glyph selection is the
BT.601 weighted sum truncated toward zero,
`int(0.299 r + 0.587 g + 0.114 b) = (299 r + 587 g + 114 b) / 1000` in
integer arithmetic; the stated test points `gray(255,0,0) = 76`,
`gray(0,0,0) = 0` and `gray(255,255,255) = 255` all hold. -/
theorem grayOf_truncate_spec (r g b : ℕ) :
    grayOf r g b = (299 * r + 587 * g + 114 * b) / 1000 ∧
    grayOf 255 0 0 = 76 ∧ grayOf 0 0 0 = 0 ∧ grayOf 255 255 255 = 255 := by
  refine ⟨grayOf_eq_div r g b, ?_, ?_, ?_⟩ <;> rw [grayOf_eq_div]

/-- Claim C6: for intensities `i, j ≤ 255` and a ramp of length `N ≥ 2`,
the lookup-table index is `⌊i / 255 * (N - 1)⌋ = i * (N - 1) / 255`, lies
in `[0, N - 1]`, and is monotone in the intensity; intensity `0` maps to
index `0` (darkest glyph) and `255` to index `N - 1` (brightest). -/
theorem mapIndex_spec (i j N : ℕ) (hi : i ≤ 255) (_hj : j ≤ 255)
    (hij : i ≤ j) (hN : 2 ≤ N) :
    mapIndex i N = i * (N - 1) / 255 ∧ mapIndex i N ≤ N - 1 ∧
    mapIndex i N ≤ mapIndex j N ∧
    mapIndex 0 N = 0 ∧ mapIndex 255 N = N - 1 := by
  have hN1 : 1 ≤ N := by omega
  have hi' := mapIndex_eq_div i N hN1
  have hj' := mapIndex_eq_div j N hN1
  have h0 := mapIndex_eq_div 0 N hN1
  have h255 := mapIndex_eq_div 255 N hN1
  have hcancel : 255 * (N - 1) / 255 = N - 1 :=
    Nat.mul_div_cancel_left (N - 1) (by norm_num)
  have hbound : i * (N - 1) / 255 ≤ 255 * (N - 1) / 255 :=
    Nat.div_le_div_right (Nat.mul_le_mul_right (N - 1) hi)
  have hmono : i * (N - 1) / 255 ≤ j * (N - 1) / 255 :=
    Nat.div_le_div_right (Nat.mul_le_mul_right (N - 1) hij)
  refine ⟨hi', ?_, ?_, ?_, ?_⟩
  · rw [hi']
    omega
  · rw [hi', hj']
    exact hmono
  · rw [h0]
    simp
  · rw [h255, hcancel]

/-- Witness for claim C6 at `i = 100`, `j = 200`, `N = 10`. -/
theorem mapIndex_spec_witness :
    mapIndex 100 10 = 100 * (10 - 1) / 255 ∧ mapIndex 100 10 ≤ 10 - 1 ∧
    mapIndex 100 10 ≤ mapIndex 200 10 ∧
    mapIndex 0 10 = 0 ∧ mapIndex 255 10 = 10 - 1 :=
  mapIndex_spec 100 200 10 (by norm_num) (by norm_num) (by norm_num)
    (by norm_num)

/-- Claim C7: for channels `r, g, b ≤ 255` the 256-color mode emits
`16 + 36*(r/51) + 6*(g/51) + (b/51)` (floor division), and this code is
always in `[16, 231]`. -/
theorem colorCode_spec (r g b : ℕ) (hr : r ≤ 255) (hg : g ≤ 255)
    (hb : b ≤ 255) :
    colorCode r g b = 16 + 36 * (r / 51) + 6 * (g / 51) + (b / 51) ∧
    16 ≤ colorCode r g b ∧ colorCode r g b ≤ 231 := by
  unfold colorCode
  omega

/-- Witness for claim C7 at `(r, g, b) = (255, 128, 0)`. -/
theorem colorCode_spec_witness :
    colorCode 255 128 0 = 16 + 36 * (255 / 51) + 6 * (128 / 51) + (0 / 51) ∧
    16 ≤ colorCode 255 128 0 ∧ colorCode 255 128 0 ≤ 231 :=
  colorCode_spec 255 128 0 (by norm_num) (by norm_num) (by norm_num)

/-- Claim C8: whenever the scheduler sleeps, the slept duration equals the
due time of the next frame (`frame_count / video_fps`) minus the elapsed
time at the check, and it is strictly positive and strictly below the
1-second sanity ceiling; it never sleeps a negative or pathologically
large duration. -/
theorem sleepDecision_spec (fc : ℕ) (fps e d : ℚ)
    (h : sleepDecision fc fps e = some d) :
    d = nextFrameTime fc fps - e ∧ 0 < d ∧ d < 1 := by
  simp only [sleepDecision] at h
  split at h
  · rename_i hc
    obtain rfl : nextFrameTime fc fps - e = d := by injection h
    exact ⟨rfl, hc.1, hc.2⟩
  · exact absurd h (by simp)

/-- Witness for claim C8 at `frame_count = 1`, `fps = 10`,
`elapsedNow = 1/20` (sleep of `1/20` seconds). -/
theorem sleepDecision_spec_witness :
    (1 / 20 : ℚ) = nextFrameTime 1 10 - 1 / 20 ∧
    (0 : ℚ) < 1 / 20 ∧ (1 / 20 : ℚ) < 1 :=
  sleepDecision_spec 1 10 (1 / 20) (1 / 20)
    (by norm_num [sleepDecision, nextFrameTime])

/-- Counterexample for claim C9 as stated: on a 10-column, 3-row terminal
(with a 100×100 video and pre-set width 95), `calculate_dimensions`
produces width `-1` and height `-1` — there is no degradation to a
positive minimum viable grid. -/
theorem calculate_dimensions_counterexample :
    calculate_dimensions 95 100 100 10 3 = (-1, -1) ∧
    ¬(0 < (calculate_dimensions 95 100 100 10 3).1 ∧
      0 < (calculate_dimensions 95 100 100 10 3).2) := by
  have h : calculate_dimensions 95 100 100 10 3 = (-1, -1) := by
    norm_num [calculate_dimensions, ratTrunc]
  refine ⟨h, ?_⟩
  rw [h]
  decide

/-- Claim C9 (amended): the dimension calculation is total (it never
fails) and clamps the final character-grid width to at most
`term_width - 2`, but it enforces no positive minimum: terminals smaller
than the built-in margins yield nonpositive dimensions. -/
theorem calculate_dimensions_width_clamped (width vw vh tw th : ℤ) :
    (calculate_dimensions width vw vh tw th).1 ≤ tw - 2 := by
  simp only [calculate_dimensions]
  split <;> split <;> simp_all

/-- Claim C10: `ASCII_CHARS.get(style, ASCII_CHARS['ultra'])` — an
unrecognized style name falls back to the `'ultra'` ramp and never raises:
construction succeeds for every style string. -/
theorem ascii_chars_init_fallback (s : String)
    (h : s ∉ ["standard", "detailed", "blocks", "simple", "matrix",
      "crazy", "ultra"]) :
    ascii_chars_init s = ultraRamp := by
  simp only [List.mem_cons, List.not_mem_nil, or_false, not_or] at h
  obtain ⟨h1, h2, h3, h4, h5, h6, h7⟩ := h
  have b1 : (s == "standard") = false := beq_eq_false_iff_ne.mpr h1
  have b2 : (s == "detailed") = false := beq_eq_false_iff_ne.mpr h2
  have b3 : (s == "blocks") = false := beq_eq_false_iff_ne.mpr h3
  have b4 : (s == "simple") = false := beq_eq_false_iff_ne.mpr h4
  have b5 : (s == "matrix") = false := beq_eq_false_iff_ne.mpr h5
  have b6 : (s == "crazy") = false := beq_eq_false_iff_ne.mpr h6
  have b7 : (s == "ultra") = false := beq_eq_false_iff_ne.mpr h7
  simp [ascii_chars_init, ASCII_CHARS, List.lookup, b1, b2, b3, b4, b5,
    b6, b7]

/-- Witness for claim C10 at the unrecognized style name `"sketch"`. -/
theorem ascii_chars_init_fallback_witness :
    ascii_chars_init "sketch" = ultraRamp :=
  ascii_chars_init_fallback "sketch" (by decide)

end AsciiVideo
